import Mathlib

/-!
Shallow embedding of `src/marktex/cli.py` (MarkTeX command-line tool).

Paths are modelled after Python `pathlib.PurePosixPath`: a flag recording
whether the path is absolute plus the list of name components.  `resolve()`
is modelled as the identity on already-absolute, symlink-free paths; all
paths fed to the resolver in the program have been resolved beforehand.
The filesystem is an existence predicate on paths; external processes are
modelled by an oracle recording the outcome of each external invocation,
and the pipeline functions return the trace of the events they perform.
-/

namespace MarkTeX

/-- A `pathlib` path: absolute flag plus name components.
`Path('.')` is `⟨false, []⟩`; the filesystem root `/` is `⟨true, []⟩`. -/
structure PyPath where
  absolute : Bool
  parts : List String
deriving DecidableEq, Repr

/-- Split a character list around its last dot: returns the characters
before and after the last `'.'`, or `none` when no dot occurs. -/
def splitLastDot : List Char → Option (List Char × List Char)
  | [] => none
  | c :: rest =>
    match splitLastDot rest with
    | some (b, a) => some (c :: b, a)
    | none => if c = '.' then some ([], rest) else none

/-- Python `PurePath.suffix` of a file name: the extension from the last
dot, empty when the dot is the first or the last character. -/
def pySuffix (name : String) : String :=
  match splitLastDot name.data with
  | some (stem, ext) => if stem ≠ [] ∧ ext ≠ [] then String.mk ('.' :: ext) else ""
  | none => ""

/-- Python `with_suffix` applied to a file name: drop the old suffix (when
there is one) and append the new suffix. -/
def pyWithSuffixName (name suffix : String) : String :=
  let k := (pySuffix name).length
  String.mk (name.data.take (name.data.length - k)) ++ suffix

/-- Python `PurePath.name`: the final component, `""` for `/` and `.`. -/
def PyPath.name (p : PyPath) : String :=
  (p.parts.getLast?).getD ""

/-- Python `PurePath.with_suffix`: replace the extension of the final
component.  (Python raises on an empty name; no caller in this program
reaches that case, modelled as the identity.) -/
def PyPath.withSuffix (p : PyPath) (suffix : String) : PyPath :=
  match p.parts.getLast? with
  | none => p
  | some last => ⟨p.absolute, p.parts.dropLast ++ [pyWithSuffixName last suffix]⟩

/-- Python `PurePath.__truediv__` (the `/` join): joining with an absolute
right operand discards the left operand. -/
def PyPath.join (p q : PyPath) : PyPath :=
  if q.absolute then q else ⟨p.absolute, p.parts ++ q.parts⟩

/-- Python `PurePath.parent`: drop the last component (the root and `.`
are their own parents). -/
def PyPath.parent (p : PyPath) : PyPath :=
  ⟨p.absolute, p.parts.dropLast⟩

/-- Python `PurePath.relative_to`: succeeds exactly when the other path is
a prefix (same kind, component prefix), returning the relative remainder;
Python raises `ValueError` otherwise, modelled as `none`. -/
def PyPath.relative_to (p root : PyPath) : Option PyPath :=
  if p.absolute = root.absolute ∧ root.parts <+: p.parts then
    some ⟨false, p.parts.drop root.parts.length⟩
  else
    none

/-- One path is a prefix of another (used for removing a directory tree). -/
def PyPath.isPrefixOf (p q : PyPath) : Bool :=
  decide (p.absolute = q.absolute ∧ p.parts <+: q.parts)

/-- The filesystem, abstracted to an existence predicate on paths. -/
def FS := PyPath → Bool

/-- Creating a file or directory. -/
def FS.create (fs : FS) (p : PyPath) : FS :=
  fun q => decide (q = p) || fs q

/-- Removing a single file. -/
def FS.remove (fs : FS) (p : PyPath) : FS :=
  fun q => !(decide (q = p)) && fs q

/-- Removing a directory together with all of its contents. -/
def FS.removeTree (fs : FS) (dir : PyPath) : FS :=
  fun q => !(dir.isPrefixOf q) && fs q

/-- The marker check of `find_repo_root`: the directory contains a `PDF`
folder, a `TEX` folder, or a `.git` entry. -/
def hasRepoMarker (fsE : FS) (dir : PyPath) : Bool :=
  fsE (dir.join ⟨false, ["PDF"]⟩) || fsE (dir.join ⟨false, ["TEX"]⟩) ||
    fsE (dir.join ⟨false, [".git"]⟩)

/-- The upward walk of `find_repo_root` over the components of a resolved
absolute path.  The loop `while current != current.parent` stops at the
filesystem root without examining the root itself, hence the `[]` case. -/
def findRepoRootGo (fsE : FS) : List String → Option (List String)
  | [] => none
  | p :: ps =>
    if hasRepoMarker fsE ⟨true, p :: ps⟩ then some (p :: ps)
    else findRepoRootGo fsE ((p :: ps).dropLast)
termination_by l => l.length
decreasing_by simp [List.length_dropLast]

/-- `find_repo_root`: walk up from `start_path` (already resolved) looking
for a directory containing a `PDF/`, `TEX/` or `.git` marker. -/
def find_repo_root (fsE : FS) (start_path : PyPath) : Option PyPath :=
  (findRepoRootGo fsE start_path.parts).map (fun ps => ⟨true, ps⟩)

/-- `get_relative_path_from_root`: relative path of `file_path` from
`repo_root`, stripping a leading `PDF`, `TEX` or `recent` component; on
`ValueError` from `relative_to`, fall back to `file_path` itself. -/
def get_relative_path_from_root (file_path repo_root : PyPath) : PyPath :=
  match file_path.relative_to repo_root with
  | some rel =>
    match rel.parts with
    | p :: rest =>
      if p = "PDF" ∨ p = "TEX" ∨ p = "recent" then ⟨false, rest⟩
      else ⟨false, p :: rest⟩
    | [] => ⟨false, []⟩
  | none => file_path

/-- The `Output Path Set`: targets for the generated PDF and LaTeX files
plus the optional `recent/` convenience directory. -/
structure MirrorPaths where
  pdf : PyPath
  tex : PyPath
  recent : Option PyPath
deriving DecidableEq, Repr

/-- `get_mirror_paths`: simple mode puts outputs beside the source and has
no `recent` directory; repository mode mirrors the relative path under
`repo_root/PDF` and `repo_root/TEX` with `repo_root/recent` alongside. -/
def get_mirror_paths (source_file : PyPath) (repo_root : Option PyPath) :
    MirrorPaths :=
  match repo_root with
  | none =>
    { pdf := source_file.withSuffix ".pdf"
      tex := source_file.withSuffix ".tex"
      recent := none }
  | some root =>
    let rel_path := get_relative_path_from_root source_file root
    { pdf := (root.join ⟨false, ["PDF"]⟩).join (rel_path.withSuffix ".pdf")
      tex := (root.join ⟨false, ["TEX"]⟩).join (rel_path.withSuffix ".tex")
      recent := some (root.join ⟨false, ["recent"]⟩) }

/-- Observable side effects of one invocation: each external process the
program spawns (`which` probes, `pandoc` conversions, `latexmk` compiles)
and each in-process file copy into the `recent/` directory. -/
inductive Event where
  | probe (tool : String)
  | pandocToTex (src dst : PyPath)
  | pandocToPdf (src dst : PyPath)
  | latexmk (texName : String) (workdir : PyPath)
  | copyRecent (src dst : PyPath)
deriving DecidableEq, Repr

/-- Whether the event spawns an external process. -/
def Event.isExternalProcess : Event → Bool
  | .probe _ => true
  | .pandocToTex _ _ => true
  | .pandocToPdf _ _ => true
  | .latexmk _ _ => true
  | .copyRecent _ _ => false

/-- Whether the event is the LaTeX-to-PDF compile invocation. -/
def Event.isCompile : Event → Bool
  | .latexmk _ _ => true
  | _ => false

/-- Whether the event is a copy into the `recent/` directory. -/
def Event.isCopy : Event → Bool
  | .copyRecent _ _ => true
  | _ => false

/-- Whether the event is a converter or compiler invocation (an external
build step, as opposed to the dependency probes). -/
def Event.isBuildStep : Event → Bool
  | .pandocToTex _ _ => true
  | .pandocToPdf _ _ => true
  | .latexmk _ _ => true
  | _ => false

/-- Outcomes of the external world for one invocation: whether each
external process succeeds, whether the in-`with`-block filesystem
operations of the compile stage raise, the fresh temporary directory name
chosen by `tempfile`, and the current working directory. -/
structure Oracle where
  mdToTexOk : Bool
  mdToPdfOk : Bool
  latexmkOk : Bool
  copyTexFails : Bool
  copytreeFails : Bool
  moveFails : Bool
  tmpdir : PyPath
  cwd : PyPath

/-- `convert_md_to_tex`: create the parent directory, invoke `pandoc`
(markdown to standalone LaTeX with the mermaid filter); on success the
output file exists, on `CalledProcessError` report failure. -/
def convert_md_to_tex (o : Oracle) (fs : FS) (input_md output_tex : PyPath) :
    FS × List Event × Bool :=
  let fs := fs.create output_tex.parent
  if o.mdToTexOk then
    (fs.create output_tex, [Event.pandocToTex input_md output_tex], true)
  else
    (fs, [Event.pandocToTex input_md output_tex], false)

/-- `convert_md_to_pdf_direct`: create the parent directory, invoke
`pandoc` (markdown straight to PDF); report success or failure. -/
def convert_md_to_pdf_direct (o : Oracle) (fs : FS)
    (input_md output_pdf : PyPath) : FS × List Event × Bool :=
  let fs := fs.create output_pdf.parent
  if o.mdToPdfOk then
    (fs.create output_pdf, [Event.pandocToPdf input_md output_pdf], true)
  else
    (fs, [Event.pandocToPdf input_md output_pdf], false)

/-- The `latexmk` invocation and final `shutil.move` of the compile
stage: run `latexmk` in the temporary directory; on success move the
produced PDF to its final location (`Except.error` models `shutil.move`
raising); a `latexmk` failure is caught and reported as `ok false`. -/
def compileRun (o : Oracle) (fs : FS) (tex_file output_pdf : PyPath) :
    FS × List Event × Except Unit Bool :=
  let tmp := o.tmpdir
  let temp_tex := tmp.join ⟨false, [tex_file.name]⟩
  let ev := Event.latexmk temp_tex.name tmp
  if o.latexmkOk then
    let temp_pdf := tmp.join ⟨false, [pyWithSuffixName tex_file.name ".pdf"]⟩
    let fs := fs.create temp_pdf
    if o.moveFails then (fs, [ev], Except.error ())
    else ((fs.remove temp_pdf).create output_pdf, [ev], Except.ok true)
  else (fs, [ev], Except.ok false)

/-- The body of the `with tempfile.TemporaryDirectory()` block of
`compile_tex_to_pdf`: copy the source into the temporary directory, copy
the `mermaid-images` cache when it exists in the working directory, then
run the compiler.  `Except.error` models an exception escaping the block
(`shutil.copy` or `shutil.copytree` raising). -/
def compileBody (o : Oracle) (fs : FS) (tex_file output_pdf : PyPath) :
    FS × List Event × Except Unit Bool :=
  let tmp := o.tmpdir
  let temp_tex := tmp.join ⟨false, [tex_file.name]⟩
  if o.copyTexFails then (fs, [], Except.error ()) else
  let fs1 := fs.create temp_tex
  let mermaid_src := o.cwd.join ⟨false, ["mermaid-images"]⟩
  match fs1 mermaid_src, o.copytreeFails with
  | true, true => (fs1, [], Except.error ())
  | true, false =>
    compileRun o (fs1.create (tmp.join ⟨false, ["mermaid-images"]⟩))
      tex_file output_pdf
  | false, _ => compileRun o fs1 tex_file output_pdf

/-- `compile_tex_to_pdf`: create the output parent directory, create a
fresh temporary directory, run the body, and remove the temporary
directory with all its contents on every exit path (the context manager
guarantees cleanup also when the body raises). -/
def compile_tex_to_pdf (o : Oracle) (fs : FS) (tex_file output_pdf : PyPath) :
    FS × List Event × Except Unit Bool :=
  let fs1 := (fs.create output_pdf.parent).create o.tmpdir
  let res := compileBody o fs1 tex_file output_pdf
  (FS.removeTree res.1 o.tmpdir, res.2.1, res.2.2)

/-- `copy_to_recent`: silently return when the file does not exist;
otherwise create the `recent/` directory and copy the file (flat, under
its base name). -/
def copy_to_recent (fs : FS) (source_file recent_dir : PyPath) :
    FS × List Event :=
  if fs source_file = false then (fs, [])
  else
    let fs := fs.create recent_dir
    let dest_file := recent_dir.join ⟨false, [source_file.name]⟩
    (fs.create dest_file, [Event.copyRecent source_file dest_file])

/-- The three output modes of the pipeline. -/
inductive Mode where
  | both
  | pdfOnly
  | texOnly
deriving DecidableEq, Repr

/-- `build_markdown_outputs`: resolve the output paths, then run the
stages of the requested mode in order, aborting on the first failure, and
copy the produced artifacts into `recent/` when one was resolved.
`Except.error` models an exception propagating out of the compile stage. -/
def build_markdown_outputs (o : Oracle) (fs : FS) (source_file : PyPath)
    (mode : Mode) (repo_root : Option PyPath) :
    FS × List Event × Except Unit Bool :=
  let paths := get_mirror_paths source_file repo_root
  match mode with
  | .pdfOnly =>
    let r1 := convert_md_to_pdf_direct o fs source_file paths.pdf
    if r1.2.2 = false then (r1.1, r1.2.1, Except.ok false)
    else
      match paths.recent with
      | some rd =>
        let r2 := copy_to_recent r1.1 paths.pdf rd
        (r2.1, r1.2.1 ++ r2.2, Except.ok true)
      | none => (r1.1, r1.2.1, Except.ok true)
  | .texOnly =>
    let r1 := convert_md_to_tex o fs source_file paths.tex
    if r1.2.2 = false then (r1.1, r1.2.1, Except.ok false)
    else
      match paths.recent with
      | some rd =>
        let r2 := copy_to_recent r1.1 paths.tex rd
        (r2.1, r1.2.1 ++ r2.2, Except.ok true)
      | none => (r1.1, r1.2.1, Except.ok true)
  | .both =>
    let r1 := convert_md_to_tex o fs source_file paths.tex
    if r1.2.2 = false then (r1.1, r1.2.1, Except.ok false)
    else
      let r2 := compile_tex_to_pdf o r1.1 paths.tex paths.pdf
      match r2.2.2 with
      | Except.error e => (r2.1, r1.2.1 ++ r2.2.1, Except.error e)
      | Except.ok false => (r2.1, r1.2.1 ++ r2.2.1, Except.ok false)
      | Except.ok true =>
        match paths.recent with
        | some rd =>
          let r3 := copy_to_recent r2.1 paths.tex rd
          let r4 := copy_to_recent r3.1 paths.pdf rd
          (r4.1, r1.2.1 ++ r2.2.1 ++ r3.2 ++ r4.2, Except.ok true)
        | none => (r2.1, r1.2.1 ++ r2.2.1, Except.ok true)

/-- `check_dependencies`: probe `pandoc`, `pandoc-mermaid`, `latexmk` and
`mmdc` with `which` (four external processes), collecting the missing
ones; returns whether all were found together with the missing list. -/
def check_dependencies (which : String → Bool) : (Bool × List String) × List Event :=
  let missing : List String := []
  let missing := if which "pandoc" then missing else missing ++ ["pandoc"]
  let missing :=
    if which "pandoc-mermaid" then missing
    else missing ++
      ["pandoc-mermaid (install via: uv tool install --from pandoc-mermaid-filter pandoc-mermaid-filter)"]
  let missing :=
    if which "latexmk" then missing
    else missing ++ ["latexmk (install via: sudo apt-get install texlive-full)"]
  let missing :=
    if which "mmdc" then missing
    else missing ++ ["mmdc (install via: npm install -g @mermaid-js/mermaid-cli)"]
  ((missing.isEmpty, missing),
   [Event.probe "pandoc", Event.probe "pandoc-mermaid",
    Event.probe "latexmk", Event.probe "mmdc"])

/-- `determine_source_type`: `.md` is `markdown`; `.tex` raises
`NotImplementedError`; anything else raises `ValueError`. -/
def determine_source_type (file_path : PyPath) : Except String String :=
  if pySuffix file_path.name = ".md" then Except.ok "markdown"
  else if pySuffix file_path.name = ".tex" then Except.error "NotImplementedError"
  else Except.error "ValueError"

/-- The parsed command-line arguments of one invocation. -/
structure Args where
  input : Option PyPath
  pdf_only : Bool
  tex_only : Bool
  repo_root : Option PyPath
  check_deps : Bool

/-- The external environment of one invocation: which executables resolve,
the filesystem, which paths are regular files or directories, and the
oracle for the build stages. -/
structure Env where
  which : String → Bool
  fs : FS
  isFile : PyPath → Bool
  isDir : PyPath → Bool
  oracle : Oracle

/-- `main`: validate arguments and input, probe the dependencies, reject
`--pdf-only` together with `--tex-only`, determine the source type, find
or validate the repository root, and run the build; returns the exit code
and the trace of events.  Input paths are taken pre-resolved. -/
def main (env : Env) (args : Args) : Int × List Event :=
  if args.check_deps then
    let r := check_dependencies env.which
    (if r.1.1 then 0 else 1, r.2)
  else
    match args.input with
    | none => (1, [])
    | some input_file =>
      if env.fs input_file = false then (1, [])
      else if env.isFile input_file = false then (1, [])
      else
        let dep := check_dependencies env.which
        if dep.1.1 = false then (1, dep.2)
        else if args.pdf_only ∧ args.tex_only then (1, dep.2)
        else
          let mode :=
            if args.pdf_only then Mode.pdfOnly
            else if args.tex_only then Mode.texOnly
            else Mode.both
          match determine_source_type input_file with
          | Except.error _ => (1, dep.2)
          | Except.ok _ =>
            let repo_root? : Option (Option PyPath) :=
              match args.repo_root with
              | some rr => if env.isDir rr then some (some rr) else none
              | none => some (find_repo_root env.fs input_file.parent)
            match repo_root? with
            | none => (1, dep.2)
            | some repo_root =>
              let b := build_markdown_outputs env.oracle env.fs input_file
                mode repo_root
              match b.2.2 with
              | Except.ok true => (0, dep.2 ++ b.2.1)
              | _ => (1, dep.2 ++ b.2.1)

/-! Helper lemmas about the path resolver. -/

theorem PyPath.withSuffix_absolute (p : PyPath) (s : String) :
    (p.withSuffix s).absolute = p.absolute := by
  unfold PyPath.withSuffix
  split <;> rfl

theorem relative_to_append (root : PyPath) (rel : List String)
    (hroot : root.absolute = true) :
    PyPath.relative_to ⟨true, root.parts ++ rel⟩ root = some ⟨false, rel⟩ := by
  simp [PyPath.relative_to, hroot, List.prefix_append, List.drop_left]

theorem rel_from_root_plain (root : PyPath) (rel : List String)
    (hroot : root.absolute = true)
    (hhead : ∀ x ∈ rel.head?, ¬(x = "PDF" ∨ x = "TEX" ∨ x = "recent")) :
    get_relative_path_from_root ⟨true, root.parts ++ rel⟩ root = ⟨false, rel⟩ := by
  unfold get_relative_path_from_root
  rw [relative_to_append root rel hroot]
  match rel with
  | [] => rfl
  | x :: rest =>
    have hx := hhead x rfl
    simp [hx]

theorem rel_from_root_special (root : PyPath) (s : String) (rest : List String)
    (hroot : root.absolute = true) (hs : s = "PDF" ∨ s = "TEX" ∨ s = "recent") :
    get_relative_path_from_root ⟨true, root.parts ++ s :: rest⟩ root =
      ⟨false, rest⟩ := by
  unfold get_relative_path_from_root
  rw [relative_to_append root (s :: rest) hroot]
  simp [hs]

theorem mirror_paths_congr (f g root : PyPath)
    (h : get_relative_path_from_root f root = get_relative_path_from_root g root) :
    get_mirror_paths f (some root) = get_mirror_paths g (some root) := by
  simp [get_mirror_paths, h]

/-- Claim C1: for a source file under the repository root whose leading
relative segment is not one of the special output folders, repository-mode
resolution mirrors the relative path under `repoRoot/TEX` (extension
`.tex`) and `repoRoot/PDF` (extension `.pdf`), and the convenience
directory is the flat `repoRoot/recent`. -/
theorem C1_repo_mode_mirror (root : PyPath) (rel : List String)
    (hroot : root.absolute = true) (_hne : rel ≠ [])
    (hhead : ∀ x ∈ rel.head?, ¬(x = "PDF" ∨ x = "TEX" ∨ x = "recent")) :
    get_mirror_paths ⟨true, root.parts ++ rel⟩ (some root) =
      { pdf := ⟨true, root.parts ++ "PDF" ::
          (PyPath.withSuffix ⟨false, rel⟩ ".pdf").parts⟩
        tex := ⟨true, root.parts ++ "TEX" ::
          (PyPath.withSuffix ⟨false, rel⟩ ".tex").parts⟩
        recent := some ⟨true, root.parts ++ ["recent"]⟩ } := by
  have hrel := rel_from_root_plain root rel hroot hhead
  have habs1 := PyPath.withSuffix_absolute ⟨false, rel⟩ ".pdf"
  have habs2 := PyPath.withSuffix_absolute ⟨false, rel⟩ ".tex"
  simp [get_mirror_paths, hrel, PyPath.join, habs1, habs2, hroot]

/-- Claim C1 witness: source `/repo/notes/plan.md` with root `/repo`
resolves to `/repo/TEX/notes/plan.tex`, `/repo/PDF/notes/plan.pdf` and
convenience directory `/repo/recent`. -/
theorem C1_repo_mode_mirror_witness :
    get_mirror_paths ⟨true, ["repo", "notes", "plan.md"]⟩
        (some ⟨true, ["repo"]⟩) =
      { pdf := ⟨true, ["repo", "PDF", "notes", "plan.pdf"]⟩
        tex := ⟨true, ["repo", "TEX", "notes", "plan.tex"]⟩
        recent := some ⟨true, ["repo", "recent"]⟩ } := by
  have h := C1_repo_mode_mirror ⟨true, ["repo"]⟩ ["notes", "plan.md"] rfl
    (by decide) (by decide)
  rw [show (⟨true, ["repo", "notes", "plan.md"]⟩ : PyPath) =
      ⟨true, (⟨true, ["repo"]⟩ : PyPath).parts ++ ["notes", "plan.md"]⟩ from rfl]
  rw [h]
  decide

/-- Claim C2: resolving a source path already inside one of the output
folders (`PDF`, `TEX`, `recent`) strips that leading segment, so it yields
the same Output Path Set as resolving the corresponding pre-organized path
outside the output folders. -/
theorem C2_strip_idempotent (root : PyPath) (s : String) (rest : List String)
    (hroot : root.absolute = true)
    (hs : s = "PDF" ∨ s = "TEX" ∨ s = "recent")
    (hrest : ∀ x ∈ rest.head?, ¬(x = "PDF" ∨ x = "TEX" ∨ x = "recent")) :
    get_mirror_paths ⟨true, root.parts ++ s :: rest⟩ (some root) =
      get_mirror_paths ⟨true, root.parts ++ rest⟩ (some root) := by
  apply mirror_paths_congr
  rw [rel_from_root_special root s rest hroot hs,
    rel_from_root_plain root rest hroot hrest]

/-- Claim C2 witness: `/repo/TEX/notes/plan.tex` resolves to the same
Output Path Set as `/repo/notes/plan.tex`. -/
theorem C2_strip_idempotent_witness :
    get_mirror_paths ⟨true, ["repo", "TEX", "notes", "plan.tex"]⟩
        (some ⟨true, ["repo"]⟩) =
      get_mirror_paths ⟨true, ["repo", "notes", "plan.tex"]⟩
        (some ⟨true, ["repo"]⟩) :=
  C2_strip_idempotent ⟨true, ["repo"]⟩ "TEX" ["notes", "plan.tex"] rfl
    (by decide) (by decide)

/-- Claim C3: in simple mode (no repository root) the LaTeX and PDF
targets sit beside the source (extension replaced) and there is no
convenience directory; a pdf-only build then performs exactly one event,
the direct markdown-to-PDF conversion to the sibling `.pdf` path, and
never attempts a convenience copy. -/
theorem C3_simple_mode (src : PyPath) (o : Oracle) (fs : FS) :
    get_mirror_paths src none =
      { pdf := src.withSuffix ".pdf", tex := src.withSuffix ".tex",
        recent := none } ∧
    (build_markdown_outputs o fs src Mode.pdfOnly none).2.1 =
      [Event.pandocToPdf src (src.withSuffix ".pdf")] := by
  refine ⟨rfl, ?_⟩
  unfold build_markdown_outputs convert_md_to_pdf_direct get_mirror_paths
  cases h : o.mdToPdfOk <;> simp [h]

theorem relative_to_fail (file_path repo_root : PyPath)
    (h : ¬(file_path.absolute = repo_root.absolute ∧
        repo_root.parts <+: file_path.parts)) :
    PyPath.relative_to file_path repo_root = none := by
  simp only [PyPath.relative_to]
  exact if_neg h

theorem rel_from_root_fallback (file_path repo_root : PyPath)
    (h : ¬(file_path.absolute = repo_root.absolute ∧
        repo_root.parts <+: file_path.parts)) :
    get_relative_path_from_root file_path repo_root = file_path := by
  unfold get_relative_path_from_root
  rw [relative_to_fail file_path repo_root h]

/-- Claim C7: when the source path cannot be expressed relative to the
repository root, resolution does not fail: the original path itself is
used as the relative component, and a defined Output Path Set is still
returned. -/
theorem C7_relative_fallback (file_path repo_root : PyPath)
    (h : ¬(file_path.absolute = repo_root.absolute ∧
        repo_root.parts <+: file_path.parts)) :
    get_relative_path_from_root file_path repo_root = file_path ∧
    get_mirror_paths file_path (some repo_root) =
      { pdf := (repo_root.join ⟨false, ["PDF"]⟩).join (file_path.withSuffix ".pdf")
        tex := (repo_root.join ⟨false, ["TEX"]⟩).join (file_path.withSuffix ".tex")
        recent := some (repo_root.join ⟨false, ["recent"]⟩) } := by
  have hrel := rel_from_root_fallback file_path repo_root h
  exact ⟨hrel, by simp [get_mirror_paths, hrel]⟩

/-- Claim C7 witness: `/tmp/x.md` is not under `/repo`, and resolution
falls back to the source path itself. -/
theorem C7_relative_fallback_witness :
    get_relative_path_from_root ⟨true, ["tmp", "x.md"]⟩ ⟨true, ["repo"]⟩ =
      ⟨true, ["tmp", "x.md"]⟩ :=
  (C7_relative_fallback ⟨true, ["tmp", "x.md"]⟩ ⟨true, ["repo"]⟩ (by decide)).1

/-- Claim C10: for an absolute source path not under the repository root,
the repository-mode LaTeX and PDF targets degenerate to the source path
with its extension replaced (joining with an absolute path discards the
`repoRoot/PDF` and `repoRoot/TEX` prefixes), while the convenience
directory is still `repoRoot/recent`. -/
theorem C10_outside_root_degenerate (file_path repo_root : PyPath)
    (hfa : file_path.absolute = true)
    (h : ¬(repo_root.absolute = true ∧ repo_root.parts <+: file_path.parts)) :
    get_mirror_paths file_path (some repo_root) =
      { pdf := file_path.withSuffix ".pdf"
        tex := file_path.withSuffix ".tex"
        recent := some (repo_root.join ⟨false, ["recent"]⟩) } := by
  have h' : ¬(file_path.absolute = repo_root.absolute ∧
      repo_root.parts <+: file_path.parts) := by
    intro ⟨h1, h2⟩
    exact h ⟨by rw [← h1, hfa], h2⟩
  have hrel := rel_from_root_fallback file_path repo_root h'
  have ha1 : (file_path.withSuffix ".pdf").absolute = true := by
    rw [PyPath.withSuffix_absolute, hfa]
  have ha2 : (file_path.withSuffix ".tex").absolute = true := by
    rw [PyPath.withSuffix_absolute, hfa]
  simp [get_mirror_paths, hrel, PyPath.join, ha1, ha2]

/-- Claim C10 witness: source `/tmp/x.md` with root `/repo` yields targets
`/tmp/x.pdf` and `/tmp/x.tex` beside the source, with convenience
directory `/repo/recent`. -/
theorem C10_outside_root_degenerate_witness :
    get_mirror_paths ⟨true, ["tmp", "x.md"]⟩ (some ⟨true, ["repo"]⟩) =
      { pdf := ⟨true, ["tmp", "x.pdf"]⟩
        tex := ⟨true, ["tmp", "x.tex"]⟩
        recent := some ⟨true, ["repo", "recent"]⟩ } := by
  rw [C10_outside_root_degenerate ⟨true, ["tmp", "x.md"]⟩ ⟨true, ["repo"]⟩
    rfl (by decide)]
  decide

/-! Helper lemmas about the repository locator. -/

theorem prefix_dropLast_of_proper {q l : List String} (hq : q <+: l)
    (hne : q ≠ l) : q <+: l.dropLast := by
  obtain ⟨t, rfl⟩ := hq
  cases t with
  | nil => simp at hne
  | cons b t =>
    rw [List.dropLast_append_cons]
    exact ⟨(b :: t).dropLast, rfl⟩

theorem findRepoRootGo_some (fsE : FS) (ps r : List String)
    (h : findRepoRootGo fsE ps = some r) :
    r <+: ps ∧ r ≠ [] ∧ hasRepoMarker fsE ⟨true, r⟩ = true ∧
      ∀ q, q <+: ps → r <+: q → q ≠ r → hasRepoMarker fsE ⟨true, q⟩ = false := by
  induction ps using findRepoRootGo.induct fsE with
  | case1 => simp [findRepoRootGo] at h
  | case2 p ps hm =>
    rw [findRepoRootGo, if_pos hm] at h
    simp only [Option.some.injEq] at h
    subst h
    refine ⟨List.prefix_refl _, by simp, hm, ?_⟩
    intro q hq1 hq2 hq3
    exact absurd (hq2.eq_of_length_le hq1.length_le) (Ne.symm hq3)
  | case3 p ps hm ih =>
    rw [findRepoRootGo, if_neg hm] at h
    obtain ⟨h1, h2, h3, h4⟩ := ih h
    refine ⟨h1.trans <| List.dropLast_prefix _, h2, h3, ?_⟩
    intro q hq1 hq2 hq3
    by_cases hqe : q = p :: ps
    · subst hqe
      exact Bool.of_not_eq_true hm
    · exact h4 q (prefix_dropLast_of_proper hq1 hqe) hq2 hq3

theorem findRepoRootGo_none (fsE : FS) (ps : List String)
    (h : findRepoRootGo fsE ps = none) :
    ∀ q, q ≠ [] → q <+: ps → hasRepoMarker fsE ⟨true, q⟩ = false := by
  induction ps using findRepoRootGo.induct fsE with
  | case1 =>
    intro q hq1 hq2
    exact absurd (List.prefix_nil.mp hq2) hq1
  | case2 p ps hm => rw [findRepoRootGo, if_pos hm] at h; exact absurd h (by simp)
  | case3 p ps hm ih =>
    rw [findRepoRootGo, if_neg hm] at h
    intro q hq1 hq2
    by_cases hqe : q = p :: ps
    · subst hqe
      exact Bool.of_not_eq_true hm
    · exact ih h q hq1 (prefix_dropLast_of_proper hq2 hqe)

/-- Claim C4: the repository locator returns the nearest ancestor (the
longest prefix of the starting directory, the starting directory itself
included) that contains a `PDF`, `TEX` or `.git` marker, and `none` when
no directory strictly below the filesystem root on that upward path
contains one; being a total function, it never raises. -/
theorem C4_locate_nearest (fsE : FS) (start_path : PyPath) :
    (∀ r, find_repo_root fsE start_path = some r →
        r.absolute = true ∧ r.parts <+: start_path.parts ∧ r.parts ≠ [] ∧
        hasRepoMarker fsE r = true ∧
        ∀ q, q <+: start_path.parts → r.parts <+: q → q ≠ r.parts →
          hasRepoMarker fsE ⟨true, q⟩ = false) ∧
    (find_repo_root fsE start_path = none →
        ∀ q, q ≠ [] → q <+: start_path.parts →
          hasRepoMarker fsE ⟨true, q⟩ = false) := by
  constructor
  · intro r hr
    unfold find_repo_root at hr
    match hgo : findRepoRootGo fsE start_path.parts with
    | none => rw [hgo] at hr; exact absurd hr (by simp)
    | some rs =>
      rw [hgo] at hr
      simp only [Option.map_some', Option.some.injEq] at hr
      obtain ⟨h1, h2, h3, h4⟩ := findRepoRootGo_some fsE start_path.parts rs hgo
      subst hr
      exact ⟨rfl, h1, h2, h3, h4⟩
  · intro h
    unfold find_repo_root at h
    match hgo : findRepoRootGo fsE start_path.parts with
    | some rs => rw [hgo] at h; exact absurd h (by simp)
    | none => exact findRepoRootGo_none fsE start_path.parts hgo

/-- Claim C4 witness: with a `.git` marker in `/repo` only, locating from
`/repo/notes` finds `/repo`; the deeper candidate `/repo/notes` has no
marker, and with no marker anywhere the locator returns `none`. -/
theorem C4_locate_nearest_witness :
    hasRepoMarker (fun p => decide (p = ⟨true, ["repo", ".git"]⟩))
        ⟨true, ["repo"]⟩ = true ∧
    hasRepoMarker (fun p => decide (p = ⟨true, ["repo", ".git"]⟩))
        ⟨true, ["repo", "notes"]⟩ = false ∧
    hasRepoMarker (fun _ => false) ⟨true, ["repo"]⟩ = false := by
  have hfind : find_repo_root (fun p => decide (p = ⟨true, ["repo", ".git"]⟩))
      ⟨true, ["repo", "notes"]⟩ = some ⟨true, ["repo"]⟩ := by
    simp [find_repo_root, findRepoRootGo, hasRepoMarker, PyPath.join]
  have h1 := (C4_locate_nearest (fun p => decide (p = ⟨true, ["repo", ".git"]⟩))
      ⟨true, ["repo", "notes"]⟩).1 ⟨true, ["repo"]⟩ hfind
  have hnone : find_repo_root (fun _ => false) ⟨true, ["repo"]⟩ = none := by
    simp [find_repo_root, findRepoRootGo, hasRepoMarker, PyPath.join]
  have h2 := (C4_locate_nearest (fun _ => false) ⟨true, ["repo"]⟩).2 hnone
  exact ⟨h1.2.2.2.1,
    h1.2.2.2.2 ["repo", "notes"] (by decide) (by decide) (by decide),
    h2 ["repo"] (by decide) (by decide)⟩

/-! Helper lemmas about the compile stage and the pipeline. -/

theorem compileRun_no_copy (o : Oracle) (fs : FS) (t p : PyPath) :
    ∀ e ∈ (compileRun o fs t p).2.1, e.isCopy = false := by
  unfold compileRun
  intro e he
  repeat' split at he
  all_goals simp at he
  all_goals subst he
  all_goals rfl

theorem compileBody_no_copy (o : Oracle) (fs : FS) (t p : PyPath) :
    ∀ e ∈ (compileBody o fs t p).2.1, e.isCopy = false := by
  unfold compileBody
  intro e he
  split at he
  · simp at he
  · dsimp only at he
    split at he
    · simp at he
    · exact compileRun_no_copy o _ t p e he
    · exact compileRun_no_copy o _ t p e he

theorem compile_tex_to_pdf_no_copy (o : Oracle) (fs : FS) (t p : PyPath) :
    ∀ e ∈ (compile_tex_to_pdf o fs t p).2.1, e.isCopy = false := by
  unfold compile_tex_to_pdf
  exact compileBody_no_copy o _ t p

/-- Claim C6: after `compile_tex_to_pdf` returns, the temporary directory
it created no longer exists — the cleanup runs on the success path, on the
caught `latexmk` failure path, and when the block is left by an exception
(the `Oracle` quantifies over all these paths). -/
theorem C6_tmpdir_removed (o : Oracle) (fs : FS) (tex_file output_pdf : PyPath) :
    (compile_tex_to_pdf o fs tex_file output_pdf).1 o.tmpdir = false := by
  unfold compile_tex_to_pdf
  simp [FS.removeTree, PyPath.isPrefixOf]

/-- Claim C5: in mode `both`, a failing Markdown-to-LaTeX stage means the
compile stage is never attempted, no convenience copy is attempted, and
the pipeline reports failure; moreover whenever the pipeline does not
report overall success, no convenience copy was attempted. -/
theorem C5_fail_fast (o : Oracle) (fs : FS) (src : PyPath)
    (rr : Option PyPath) :
    (o.mdToTexOk = false →
        (build_markdown_outputs o fs src Mode.both rr).2.2 = Except.ok false ∧
        ∀ e ∈ (build_markdown_outputs o fs src Mode.both rr).2.1,
          e.isCompile = false ∧ e.isCopy = false) ∧
    ((build_markdown_outputs o fs src Mode.both rr).2.2 ≠ Except.ok true →
        ∀ e ∈ (build_markdown_outputs o fs src Mode.both rr).2.1,
          e.isCopy = false) := by
  constructor
  · intro htex
    unfold build_markdown_outputs convert_md_to_tex
    simp [htex, Event.isCompile, Event.isCopy]
  · unfold build_markdown_outputs convert_md_to_tex
    cases htex : o.mdToTexOk with
    | false => intro _; simp [Event.isCopy]
    | true =>
      simp only [reduceIte, Bool.true_eq_false, if_false]
      split
      · intro _
        intro e he
        simp only [List.mem_append, List.mem_singleton] at he
        rcases he with he | he
        · subst he; rfl
        · exact compile_tex_to_pdf_no_copy o _ _ _ e he
      · intro _
        intro e he
        simp only [List.mem_append, List.mem_singleton] at he
        rcases he with he | he
        · subst he; rfl
        · exact compile_tex_to_pdf_no_copy o _ _ _ e he
      · split
        · intro h; exact absurd rfl h
        · intro h; exact absurd rfl h

/-- A sample oracle on which every external stage succeeds. -/
def sampleOracle : Oracle :=
  { mdToTexOk := true, mdToPdfOk := true, latexmkOk := true,
    copyTexFails := false, copytreeFails := false, moveFails := false,
    tmpdir := ⟨true, ["tmp", "mk123"]⟩, cwd := ⟨true, ["work"]⟩ }

/-- A sample oracle whose Markdown-to-LaTeX stage fails. -/
def failTexOracle : Oracle :=
  { sampleOracle with mdToTexOk := false }

/-- A sample empty filesystem. -/
def emptyFS : FS := fun _ => false

/-- Claim C5 witness: with a failing Markdown-to-LaTeX stage in mode
`both`, the pipeline reports failure and its trace holds no compile
invocation and no convenience copy. -/
theorem C5_fail_fast_witness :
    (build_markdown_outputs failTexOracle emptyFS ⟨true, ["repo", "notes", "plan.md"]⟩
        Mode.both (some ⟨true, ["repo"]⟩)).2.2 = Except.ok false ∧
    (∀ e ∈ (build_markdown_outputs failTexOracle emptyFS
        ⟨true, ["repo", "notes", "plan.md"]⟩ Mode.both (some ⟨true, ["repo"]⟩)).2.1,
      e.isCompile = false ∧ e.isCopy = false) ∧
    (∀ e ∈ (build_markdown_outputs failTexOracle emptyFS
        ⟨true, ["repo", "notes", "plan.md"]⟩ Mode.both (some ⟨true, ["repo"]⟩)).2.1,
      e.isCopy = false) := by
  have h := C5_fail_fast failTexOracle emptyFS ⟨true, ["repo", "notes", "plan.md"]⟩
    (some ⟨true, ["repo"]⟩)
  refine ⟨(h.1 rfl).1, (h.1 rfl).2, h.2 ?_⟩
  rw [(h.1 rfl).1]
  simp

/-- Claim C8: the convenience-copy step is never attempted when no
convenience directory was resolved (simple mode, any build mode, any
oracle), and `copy_to_recent` on a file that does not exist returns with
the filesystem unchanged, performing no copy and raising no error. -/
theorem C8_copy_guard (o : Oracle) (fs : FS) (src : PyPath) (mode : Mode) :
    (∀ e ∈ (build_markdown_outputs o fs src mode none).2.1, e.isCopy = false) ∧
    (∀ (g : FS) (f rd : PyPath), g f = false → copy_to_recent g f rd = (g, [])) := by
  constructor
  · intro e he
    match mode with
    | .pdfOnly =>
      revert he
      unfold build_markdown_outputs convert_md_to_pdf_direct
      cases hpdf : o.mdToPdfOk <;>
        simp [get_mirror_paths, hpdf] <;> (rintro rfl; rfl)
    | .texOnly =>
      revert he
      unfold build_markdown_outputs convert_md_to_tex
      cases htex : o.mdToTexOk <;>
        simp [get_mirror_paths, htex] <;> (rintro rfl; rfl)
    | .both =>
      revert he
      unfold build_markdown_outputs convert_md_to_tex
      cases htex : o.mdToTexOk with
      | false => simp [get_mirror_paths]; rintro rfl; rfl
      | true =>
        simp only [reduceIte, Bool.true_eq_false, if_false]
        split
        · intro he
          simp only [List.mem_append, List.mem_singleton] at he
          rcases he with he | he
          · subst he; rfl
          · exact compile_tex_to_pdf_no_copy o _ _ _ e he
        · intro he
          simp only [List.mem_append, List.mem_singleton] at he
          rcases he with he | he
          · subst he; rfl
          · exact compile_tex_to_pdf_no_copy o _ _ _ e he
        · intro he
          simp only [get_mirror_paths, List.mem_append, List.mem_singleton] at he
          rcases he with he | he
          · subst he; rfl
          · exact compile_tex_to_pdf_no_copy o _ _ _ e he
  · intro g f rd hf
    unfold copy_to_recent
    rw [hf]
    simp

/-- Claim C8 witness: a `copy_to_recent` call on a missing file is a
no-op, and the single event of a simple-mode pdf-only build is not a
convenience copy. -/
theorem C8_copy_guard_witness :
    copy_to_recent emptyFS ⟨true, ["repo", "TEX", "plan.tex"]⟩
        ⟨true, ["repo", "recent"]⟩ = (emptyFS, []) ∧
    Event.isCopy (Event.pandocToPdf ⟨true, ["tmp", "x.md"]⟩
        ⟨true, ["tmp", "x.pdf"]⟩) = false := by
  have h := C8_copy_guard sampleOracle emptyFS ⟨true, ["tmp", "x.md"]⟩ Mode.pdfOnly
  refine ⟨h.2 emptyFS _ _ rfl, ?_⟩
  apply h.1
  decide

/-- A sample environment in which every executable resolves and every
path exists as a regular file. -/
def c9Env : Env :=
  { which := fun _ => true, fs := fun _ => true, isFile := fun _ => true,
    isDir := fun _ => true, oracle := sampleOracle }

/-- Sample arguments setting both `--pdf-only` and `--tex-only` on a
valid input file. -/
def c9Args : Args :=
  { input := some ⟨true, ["tmp", "x.md"]⟩, pdf_only := true, tex_only := true,
    repo_root := none, check_deps := false }

/-- Claim C9 counterexample: with both `--pdf-only` and `--tex-only` set
on a valid input, the process does exit with code 1, but external
processes are invoked before exiting — the four `which` dependency probes
run before the mutual-exclusivity check — so "no external process is
invoked" is false. -/
theorem C9_probes_do_run :
    (main c9Env c9Args).1 = 1 ∧
    ¬(∀ e ∈ (main c9Env c9Args).2, e.isExternalProcess = false) := by
  refine ⟨rfl, ?_⟩
  decide

/-- Claim C9 (amended): with both `--pdf-only` and `--tex-only` set on a
valid input file, the process exits with code 1 and no converter or
compiler process is invoked before exiting; only the dependency probe
processes (`which`) run first. -/
theorem C9_amended_flags_exclusive (env : Env) (args : Args) (f : PyPath)
    (hcd : args.check_deps = false) (hin : args.input = some f)
    (hex : env.fs f = true) (hisf : env.isFile f = true)
    (hp : args.pdf_only = true) (ht : args.tex_only = true) :
    (main env args).1 = 1 ∧
    ∀ e ∈ (main env args).2, e.isBuildStep = false := by
  have hdep2 : (check_dependencies env.which).2 =
      [Event.probe "pandoc", Event.probe "pandoc-mermaid",
       Event.probe "latexmk", Event.probe "mmdc"] := rfl
  unfold main
  rw [hcd, hin]
  simp only [reduceIte]
  rw [hex, hisf, hp, ht]
  simp only [reduceIte, Bool.true_eq_false, if_false, and_self, if_true]
  simp only [Bool.false_eq_true, if_false, ite_self]
  rw [hdep2]
  exact ⟨trivial, by decide⟩

/-- Claim C9 witness (for the amended claim): the concrete conflicting
invocation exits 1 with no converter or compiler process in its trace. -/
theorem C9_amended_flags_exclusive_witness :
    (main c9Env c9Args).1 = 1 ∧
    ∀ e ∈ (main c9Env c9Args).2, e.isBuildStep = false :=
  C9_amended_flags_exclusive c9Env c9Args ⟨true, ["tmp", "x.md"]⟩
    rfl rfl rfl rfl rfl rfl

end MarkTeX
